import Mathlib

/-
Verification of the continuous-diary plugin core (src/core/diary_manager.py
and src/core/diary_summarizer.py).

Modelling conventions:
* Timestamps (ISO strings / epoch seconds in the source) are modelled as ℚ;
  the source compares them with the order of real time, which the order on ℚ
  reflects exactly.
* Python dicts for the per-day document are modelled by the DailyDocument
  structure below; a field that the source may set to None is an Option.
* Python truthiness of a nullable string field (None and "" are both falsy)
  is modelled by pyTruthy.
* The host application's message source and LLM backends are external
  collaborators; they enter as explicit parameters.
-/

/-- A message as converted in trigger_summary (time / sender / content). -/
structure Message where
  time : ℚ
  sender : String
  content : String
deriving DecidableEq

/-- One incremental summary entry, as built by generate_summary /
trigger_summary: keys id, start_time, end_time, message_count,
diary_content, created_at. -/
structure Summary where
  id : String
  start_time : ℚ
  end_time : ℚ
  message_count : ℕ
  diary_content : String
  created_at : ℚ
deriving DecidableEq

/-- The metadata sub-dict of a daily document
(_create_new_data_structure).  identity and consolidated_at are keys that
trigger_summary / consolidate_yesterday add later, hence Options. -/
structure DocMetadata where
  created_at : ℚ
  updated_at : ℚ
  total_summaries : ℕ
  version : String
  identity : Option String
  consolidated_at : Option ℚ
deriving DecidableEq

/-- The v3.0 per-(conversation, date) document (_create_new_data_structure). -/
structure DailyDocument where
  conversation_id : String
  date : String
  detailed_summaries : List Summary
  yesterday_version : Option String
  older_version : Option String
  last_summary_time : Option ℚ
  metadata : DocMetadata
deriving DecidableEq

/-- Python truthiness of a nullable string: None and "" are falsy. -/
def pyTruthy : Option String → Bool
  | none => false
  | some s => !(s = (""))

/-- The persisted store of one conversation folder: date string ↦ document
(one JSON file per date; json.dump/json.load round-trips these values). -/
def Store := String → Option DailyDocument

/-- _create_new_data_structure: fresh v3.0 document.  nowDate is
datetime.now().strftime("%Y-%m-%d"), now the current timestamp. -/
def createNewDataStructure (conversationId nowDate : String) (now : ℚ) : DailyDocument :=
  { conversation_id := conversationId
    date := nowDate
    detailed_summaries := []
    yesterday_version := none
    older_version := none
    last_summary_time := none
    metadata :=
      { created_at := now
        updated_at := now
        total_summaries := 0
        version := ("3.0")
        identity := none
        consolidated_at := none } }

/-- _ensure_data_structure: non-v3.0 data is rebuilt from scratch; v3.0
data keeps its fields (the key-presence repairs of the source are no-ops on
this typed model, whose documents always carry every key) and gets
metadata.version re-stamped to "3.0" and metadata.updated_at stamped to the
load time. -/
def ensureDataStructure (data : DailyDocument) (conversationId nowDate : String) (now : ℚ) :
    DailyDocument :=
  if data.metadata.version ≠ ("3.0") then
    createNewDataStructure conversationId nowDate now
  else
    { data with
      metadata := { data.metadata with version := ("3.0"), updated_at := now } }

/-- _load_conversation: read the file for the date, pass it through
_ensure_data_structure; an absent file yields a fresh structure. -/
def loadConversation (store : Store) (date : String) (conversationId nowDate : String)
    (now : ℚ) : DailyDocument :=
  match store date with
  | some data => ensureDataStructure data conversationId nowDate now
  | none => createNewDataStructure conversationId nowDate now

/-- _save_conversation: write the document for the date. -/
def saveConversation (store : Store) (date : String) (conv_data : DailyDocument) : Store :=
  fun d => if d = date then some conv_data else store d

/-- _should_trigger_summary, lines 267-299: the mode combinator acting on
the already-selected per-chat-type policy.  message_ready / time_ready are
computed only when the mode requires them, exactly as in the source;
elapsed is (now - last).total_seconds() / 3600 compared against the
configured hour interval. -/
def shouldTriggerSummary (lastSummaryTime : Option ℚ) (now : ℚ) (pendingCount : ℕ)
    (triggerType : String) (messageThreshold : ℕ) (timeIntervalHours : ℚ) : Bool :=
  let message_ready :=
    if triggerType ∈ [("message"), ("both"), ("any")] then
      decide (messageThreshold ≤ pendingCount)
    else false
  let time_ready :=
    if triggerType ∈ [("time"), ("both"), ("any")] then
      match lastSummaryTime with
      | some last_time => decide (timeIntervalHours ≤ (now - last_time) / 3600)
      | none => true
    else false
  if triggerType = ("message") then message_ready
  else if triggerType = ("time") then time_ready
  else if triggerType = ("both") then message_ready && time_ready
  else if triggerType = ("any") then message_ready || time_ready
  else false

/-- The trigger decision as the spec words it (§4.3): message_ready and
time_ready are given by their formulas unconditionally and the four-way
combinator selects among them, any unknown mode failing closed. -/
def shouldTriggerSpec (lastSummaryTime : Option ℚ) (now : ℚ) (pendingCount : ℕ)
    (triggerType : String) (messageThreshold : ℕ) (timeIntervalHours : ℚ) : Bool :=
  let message_ready := decide (messageThreshold ≤ pendingCount)
  let time_ready :=
    match lastSummaryTime with
    | some last_time => decide (timeIntervalHours ≤ (now - last_time) / 3600)
    | none => true
  if triggerType = ("message") then message_ready
  else if triggerType = ("time") then time_ready
  else if triggerType = ("both") then message_ready && time_ready
  else if triggerType = ("any") then message_ready || time_ready
  else false

/-- C1: for every pending count, elapsed time and policy, the source's
lazily-guarded trigger evaluation returns exactly the spec's combinator:
message_ready in message mode, time_ready in time mode, AND in both mode,
OR in any mode, false for every unknown mode. -/
theorem shouldTriggerSummary_matches_spec
    (lastSummaryTime : Option ℚ) (now : ℚ) (pendingCount : ℕ)
    (triggerType : String) (messageThreshold : ℕ) (timeIntervalHours : ℚ) :
    shouldTriggerSummary lastSummaryTime now pendingCount triggerType
        messageThreshold timeIntervalHours =
      shouldTriggerSpec lastSummaryTime now pendingCount triggerType
        messageThreshold timeIntervalHours := by
  unfold shouldTriggerSummary shouldTriggerSpec
  by_cases h1 : triggerType = ("message") <;>
    by_cases h2 : triggerType = ("time") <;>
      by_cases h3 : triggerType = ("both") <;>
        by_cases h4 : triggerType = ("any") <;>
          simp_all [List.mem_cons]

/-- _calculate_time_based_word_limit (diary_summarizer.py lines 35-55):
ratio 0.33 before 08:00, 0.67 before 16:00, 1.0 afterwards; the limit is
int(base_words * ratio).  The float products 2000*0.33 and 2000*0.67 round
to exactly 660.0 and 1340.0, so exact rationals 33/100 and 67/100 model
them faithfully on the claimed inputs. -/
def calculateTimeBasedWordLimit (baseWords currentHour : ℕ) : ℕ × String :=
  let rp : ℚ × String :=
    if currentHour < 8 then (33 / 100, ("早上"))
    else if currentHour < 16 then (67 / 100, ("中午"))
    else (1, ("晚上"))
  ((⌊(baseWords : ℚ) * rp.1⌋).toNat, rp.2)

/-- generate_summary lines 78-88: the effective word limit.  A provided
target (Python-truthy, i.e. non-zero) is time-scaled only for date_type
"today"; any other date_type keeps the target as is; with no target the
group/private base budget is selected and time-scaled. -/
def effectiveMaxWords (targetMaxWords : Option ℕ) (dateType conversationType : String)
    (currentHour groupTodayMaxWords privateTodayMaxWords : ℕ) : ℕ × String :=
  let baseBranch :=
    calculateTimeBasedWordLimit
      (if conversationType = ("group") then groupTodayMaxWords else privateTodayMaxWords)
      currentHour
  match targetMaxWords with
  | none => baseBranch
  | some w =>
    if w = 0 then baseBranch
    else if dateType = ("today") then calculateTimeBasedWordLimit w currentHour
    else (w, ("历史"))

lemma floor_scaled_660 : (⌊(2000 : ℚ) * (33 / 100)⌋).toNat = 660 := by
  rw [show (2000 : ℚ) * (33 / 100) = ((660 : ℕ) : ℚ) by norm_num, Int.floor_natCast]
  rfl

lemma floor_scaled_1340 : (⌊(2000 : ℚ) * (67 / 100)⌋).toNat = 1340 := by
  rw [show (2000 : ℚ) * (67 / 100) = ((1340 : ℕ) : ℚ) by norm_num, Int.floor_natCast]
  rfl

lemma floor_scaled_2000 : (⌊(2000 : ℚ) * 1⌋).toNat = 2000 := by
  rw [show (2000 : ℚ) * 1 = ((2000 : ℕ) : ℚ) by norm_num, Int.floor_natCast]
  rfl

/-- C8: the today budget 2000 maps to exactly 660 / 1340 / 2000 in the three
local-hour periods, and a non-zero target budget for the yesterday or older
tiers is never time-scaled. -/
theorem wordBudget_time_scaling (currentHour w g p : ℕ) (conversationType : String) :
    (calculateTimeBasedWordLimit 2000 currentHour).1 =
      (if currentHour < 8 then 660 else if currentHour < 16 then 1340 else 2000)
    ∧ (effectiveMaxWords (some (w + 1)) ("yesterday") conversationType
        currentHour g p).1 = w + 1
    ∧ (effectiveMaxWords (some (w + 1)) ("older") conversationType
        currentHour g p).1 = w + 1 := by
  refine ⟨?_, ?_, ?_⟩
  · unfold calculateTimeBasedWordLimit
    by_cases h8 : currentHour < 8 <;> by_cases h16 : currentHour < 16 <;>
      simp [h8, h16, floor_scaled_660, floor_scaled_1340, floor_scaled_2000]
  · simp [effectiveMaxWords]
  · simp [effectiveMaxWords]

/-- _estimate_tokens: int(len(text) / 1.5).  1.5 = 3/2 exactly, and for any
text length below 2^52 the float division int(n / 1.5) equals the exact
truncation floor(2n/3), which is Nat division 2 * n / 3. -/
def estimateTokens (textLength : ℕ) : ℕ :=
  2 * textLength / 3

/-- The flattened "sender: content" transcript joined with newlines
(trigger_summary line 408). -/
def flattenTranscript (messages : List Message) : String :=
  String.intercalate ("\n") (messages.map (fun m => m.sender ++ (": ") ++ m.content))

/-- _calculate_even_segments: 1 when the estimate fits the context limit,
otherwise the ceiling division (estimated + limit - 1) // limit.
total_items is accepted and ignored exactly as in the source. -/
def calculateEvenSegments (modelContextLimit totalItems estimatedTokens : ℕ) : ℕ :=
  if estimatedTokens ≤ modelContextLimit then 1
  else (estimatedTokens + modelContextLimit - 1) / modelContextLimit

/-- Size of chunk i in trigger_summary lines 414-420:
items_per_segment = n // k plus one extra for the first n % k chunks. -/
def segSize (n k i : ℕ) : ℕ :=
  n / k + if i < n % k then 1 else 0

/-- The list of chunk sizes for n messages in k segments. -/
def segmentSizes (n k : ℕ) : List ℕ :=
  (List.range k).map (segSize n k)

/-- Sequential slicing messages[start:start+size] for a list of sizes
(trigger_summary lines 417-430 advance start_idx chunk by chunk). -/
def splitBySizes {α : Type} : List α → List ℕ → List (List α)
  | _, [] => []
  | msgs, s :: rest => msgs.take s :: splitBySizes (msgs.drop s) rest

/-- The chronological split of the message list into k near-even chunks. -/
def splitSegments {α : Type} (msgs : List α) (k : ℕ) : List (List α) :=
  splitBySizes msgs (segmentSizes msgs.length k)

lemma range_map_sum (f : ℕ → ℕ) (k : ℕ) :
    ((List.range k).map f).sum = ∑ i ∈ Finset.range k, f i := by
  induction k with
  | zero => simp
  | succ k ih => rw [List.range_succ, Finset.sum_range_succ]; simp [ih]

lemma sum_indicator_lt (k r : ℕ) (h : r ≤ k) :
    (∑ i ∈ Finset.range k, if i < r then 1 else 0) = r := by
  induction k with
  | zero => simp; omega
  | succ k ih =>
    rw [Finset.sum_range_succ]
    rcases Nat.lt_or_ge k r with hk | hk
    · have hr : r = k + 1 := by omega
      subst hr
      have : (∑ i ∈ Finset.range k, if i < k + 1 then 1 else 0) =
          ∑ i ∈ Finset.range k, 1 := by
        apply Finset.sum_congr rfl
        intro i hi
        simp [Finset.mem_range.mp hi, Nat.lt_succ_of_lt]
      simp [this, hk]
    · have := ih (by omega)
      simp [this, Nat.not_lt.mpr hk]

lemma segmentSizes_sum (n k : ℕ) (hk : 0 < k) : (segmentSizes n k).sum = n := by
  unfold segmentSizes segSize
  rw [range_map_sum]
  rw [Finset.sum_add_distrib, Finset.sum_const, Finset.card_range, smul_eq_mul]
  rw [sum_indicator_lt k (n % k) (le_of_lt (Nat.mod_lt n hk))]
  rw [Nat.mul_comm]
  exact Nat.div_add_mod' n k

lemma splitBySizes_join {α : Type} :
    ∀ (sizes : List ℕ) (msgs : List α), sizes.sum = msgs.length →
      (splitBySizes msgs sizes).flatten = msgs := by
  intro sizes
  induction sizes with
  | nil =>
    intro msgs h
    simp at h
    simp [splitBySizes, List.eq_nil_of_length_eq_zero h.symm]
  | cons s rest ih =>
    intro msgs h
    simp [splitBySizes]
    rw [ih (msgs.drop s) (by simp [List.length_drop]; simp at h; omega)]
    exact List.take_append_drop s msgs

lemma splitBySizes_lengths {α : Type} :
    ∀ (sizes : List ℕ) (msgs : List α), sizes.sum ≤ msgs.length →
      (splitBySizes msgs sizes).map List.length = sizes := by
  intro sizes
  induction sizes with
  | nil => intro msgs _; simp [splitBySizes]
  | cons s rest ih =>
    intro msgs h
    simp at h
    simp [splitBySizes]
    constructor
    · omega
    · exact ih (msgs.drop s) (by simp [List.length_drop]; omega)

lemma calculateEvenSegments_pos (L N T : ℕ) (hL : 0 < L) :
    0 < calculateEvenSegments L N T := by
  unfold calculateEvenSegments
  split
  · omega
  · rename_i h
    have hT : L < T := Nat.lt_of_not_le h
    have : L ≤ T + L - 1 := by omega
    have := Nat.one_le_div_iff hL |>.mpr this
    omega

lemma ceil_div_nat (L T : ℕ) (hL : 0 < L) (hT : L < T) :
    (((T + L - 1) / L : ℕ) : ℤ) = ⌈(T : ℚ) / (L : ℚ)⌉ := by
  have hdm := Nat.div_add_mod (T + L - 1) L
  have hmod : (T + L - 1) % L < L := Nat.mod_lt _ hL
  -- subtraction-free bounds on the product L * ((T + L - 1) / L)
  have hub : L * ((T + L - 1) / L) + 1 ≤ T + L := by omega
  have hlb : T ≤ L * ((T + L - 1) / L) := by omega
  have hLq : (0 : ℚ) < (L : ℚ) := by exact_mod_cast hL
  have hq1 : (T : ℚ) ≤ (L : ℚ) * (((T + L - 1) / L : ℕ) : ℚ) := by exact_mod_cast hlb
  have hq2 : (L : ℚ) * (((T + L - 1) / L : ℕ) : ℚ) + 1 ≤ (T : ℚ) + (L : ℚ) := by
    exact_mod_cast hub
  have key1 : ((((T + L - 1) / L : ℕ) : ℚ)) - 1 < (T : ℚ) / (L : ℚ) := by
    rw [lt_div_iff₀ hLq]
    nlinarith
  have key2 : (T : ℚ) / (L : ℚ) ≤ (((T + L - 1) / L : ℕ) : ℚ) := by
    rw [div_le_iff₀ hLq]
    nlinarith
  symm
  rw [Int.ceil_eq_iff]
  constructor
  · exact_mod_cast key1
  · exact_mod_cast key2

/-- C3: segmentation correctness.  With context limit L > 0 and estimated
token count T = estimateTokens textLength, the segment count k is 1 when
T ≤ L and ceil(T/L) when T > L; the messages are split chronologically
into exactly k chunks (their concatenation is the original list), the chunk
sizes are n/k with one extra for the first n % k chunks, they sum to the
message count, differ pairwise by at most one, and are non-increasing, so
the remainder goes to the earliest chunks. -/
theorem segmentation_correct (L textLength : ℕ) (msgs : List ℕ) (hL : 0 < L) :
    (estimateTokens textLength ≤ L →
      calculateEvenSegments L msgs.length (estimateTokens textLength) = 1)
    ∧ (L < estimateTokens textLength →
      ((calculateEvenSegments L msgs.length (estimateTokens textLength) : ℕ) : ℤ) =
        ⌈((estimateTokens textLength : ℕ) : ℚ) / ((L : ℕ) : ℚ)⌉)
    ∧ (splitSegments msgs
        (calculateEvenSegments L msgs.length (estimateTokens textLength))).length =
      calculateEvenSegments L msgs.length (estimateTokens textLength)
    ∧ (splitSegments msgs
        (calculateEvenSegments L msgs.length (estimateTokens textLength))).map
          List.length =
      segmentSizes msgs.length
        (calculateEvenSegments L msgs.length (estimateTokens textLength))
    ∧ ((splitSegments msgs
        (calculateEvenSegments L msgs.length (estimateTokens textLength))).map
          List.length).sum = msgs.length
    ∧ (splitSegments msgs
        (calculateEvenSegments L msgs.length (estimateTokens textLength))).flatten =
      msgs
    ∧ (∀ i j : ℕ,
        segSize msgs.length
          (calculateEvenSegments L msgs.length (estimateTokens textLength)) i ≤
        segSize msgs.length
          (calculateEvenSegments L msgs.length (estimateTokens textLength)) j + 1)
    ∧ (∀ i j : ℕ, i ≤ j →
        segSize msgs.length
          (calculateEvenSegments L msgs.length (estimateTokens textLength)) j ≤
        segSize msgs.length
          (calculateEvenSegments L msgs.length (estimateTokens textLength)) i) := by
  set T := estimateTokens textLength with hT
  set k := calculateEvenSegments L msgs.length T with hkdef
  have hkpos : 0 < k := calculateEvenSegments_pos L msgs.length T hL
  have hsum : (segmentSizes msgs.length k).sum = msgs.length :=
    segmentSizes_sum msgs.length k hkpos
  have hlens : (splitSegments msgs k).map List.length = segmentSizes msgs.length k :=
    splitBySizes_lengths _ _ (le_of_eq hsum)
  refine ⟨?_, ?_, ?_, hlens, ?_, ?_, ?_, ?_⟩
  · intro h
    rw [hkdef]
    unfold calculateEvenSegments
    simp [h]
  · intro h
    rw [hkdef]
    unfold calculateEvenSegments
    rw [if_neg (by omega)]
    exact ceil_div_nat L T hL h
  · have := congrArg List.length hlens
    simpa [segmentSizes] using this
  · rw [hlens, hsum]
  · exact splitBySizes_join _ _ hsum
  · intro i j
    unfold segSize
    split <;> split <;> omega
  · intro i j hij
    unfold segSize
    split <;> split <;> omega

/-- Witness for C3 at L = 2, text length 8 (T = 5), five messages:
k = ceil(5/2) = 3, chunks [[1,2],[3,4],[5]]. -/
theorem segmentation_correct_witness :
    (0 < 2)
    ∧ calculateEvenSegments 2 ([1, 2, 3, 4, 5] : List ℕ).length (estimateTokens 8) = 3
    ∧ ((calculateEvenSegments 2 ([1, 2, 3, 4, 5] : List ℕ).length
          (estimateTokens 8) : ℕ) : ℤ) =
        ⌈((estimateTokens 8 : ℕ) : ℚ) / ((2 : ℕ) : ℚ)⌉
    ∧ (splitSegments ([1, 2, 3, 4, 5] : List ℕ)
        (calculateEvenSegments 2 ([1, 2, 3, 4, 5] : List ℕ).length
          (estimateTokens 8))).flatten = [1, 2, 3, 4, 5]
    ∧ splitSegments ([1, 2, 3, 4, 5] : List ℕ) 3 = [[1, 2], [3, 4], [5]] := by
  have h := segmentation_correct 2 8 ([1, 2, 3, 4, 5]) (by decide)
  exact ⟨by decide, by decide, h.2.1 (by decide), h.2.2.2.2.2.1, by decide⟩

/-- The attributes of DiaryManager that trigger_summary reads.
today_max_words is an Option because __init__ (lines 20-58) defines
group_today_max_words / private_today_max_words but never today_max_words:
the none value models the AttributeError raised when line 436 reads it. -/
structure DiaryManagerAttrs where
  model_context_limit : ℕ
  today_max_words : Option ℕ
deriving DecidableEq

/-- DiaryManager.__init__: model_context_limit = model_context_limit_k * 1000
and self.today_max_words is never assigned. -/
def diaryManagerInit (modelContextLimitK : ℕ) : DiaryManagerAttrs :=
  { model_context_limit := modelContextLimitK * 1000
    today_max_words := none }

/-- One LLM backend bundle as seen by trigger_summary: generate is
DiarySummarizer.generate_summary's underlying _call_llm_with_retry (an
empty string means every backend failed), merge is merge_segment_summaries
(which likewise returns its text, an empty string on failure, and never
raises). -/
structure SummarizerOracle where
  generate : List Message → String
  merge : List String → ℕ → String

/-- generate_summary (diary_summarizer.py lines 57-122): raises (none) when
the LLM text is empty, otherwise builds the summary dict.  The source
reads messages[0]["time"] with an ""-default for empty lists; head?/getLast?
with default 0 model that. -/
def generateSummary (oracle : SummarizerOracle) (msgs : List Message) (now : ℚ) :
    Option Summary :=
  let text := oracle.generate msgs
  if text = ("") then none
  else
    some
      { id := ("diary_") ++ toString now
        start_time := ((msgs.head?).map (fun m => m.time)).getD 0
        end_time := ((msgs.getLast?).map (fun m => m.time)).getD 0
        message_count := msgs.length
        diary_content := text
        created_at := now }

/-- One iteration of the per-model retry loop in trigger_summary
(lines 400-478).  Multi-segment path: summarize every chunk (a failed
chunk aborts the attempt), then read self.today_max_words — none aborts
the attempt exactly where Python raises AttributeError while building the
merge_segment_summaries call — then merge.  Single-segment path: one
generate_summary call.  none models the swallowed per-model exception. -/
def triggerAttempt (mgr : DiaryManagerAttrs) (oracle : SummarizerOracle)
    (msgs : List Message) (now : ℚ) : Option Summary :=
  let estimated_tokens := estimateTokens (flattenTranscript msgs).length
  let segments_needed := calculateEvenSegments mgr.model_context_limit msgs.length
    estimated_tokens
  if 1 < segments_needed then
    match (splitSegments msgs segments_needed).mapM
        (fun seg => (generateSummary oracle seg now).map (fun s => s.diary_content)) with
    | none => none
    | some segment_summaries =>
      match mgr.today_max_words with
      | none => none
      | some w =>
        some
          { id := ("diary_") ++ toString now
            start_time := ((msgs.head?).map (fun m => m.time)).getD 0
            end_time := ((msgs.getLast?).map (fun m => m.time)).getD 0
            message_count := msgs.length
            diary_content := oracle.merge segment_summaries w
            created_at := now }
  else
    generateSummary oracle msgs now

/-- The successful-save mutation of trigger_summary lines 455-459: append
the summary, stamp last_summary_time, bump total_summaries, record the
identity, refresh updated_at. -/
def applySummarySuccess (conv_data : DailyDocument) (summary : Summary)
    (identity : String) (now : ℚ) : DailyDocument :=
  { conv_data with
    detailed_summaries := conv_data.detailed_summaries ++ [summary]
    last_summary_time := some now
    metadata :=
      { conv_data.metadata with
        total_summaries := conv_data.metadata.total_summaries + 1
        identity := some identity
        updated_at := now } }

/-- trigger_summary (lines 301-481) on one conversation: bail out when no
model is configured or no pending message exists; otherwise run the
attempts in order and persist exactly when one succeeds.  oracles i is the
LLM behaviour observed by attempt i (the loop index is otherwise unused by
the source).  Returns the (success, document) pair. -/
def triggerSummary (mgr : DiaryManagerAttrs) (oracles : ℕ → SummarizerOracle)
    (numModels : ℕ) (msgs : List Message) (conv_data : DailyDocument)
    (identity : String) (now : ℚ) : Bool × DailyDocument :=
  if numModels = 0 then (false, conv_data)
  else if msgs.isEmpty then (false, conv_data)
  else
    match (List.range numModels).findSome?
        (fun i => triggerAttempt mgr (oracles i) msgs now) with
    | some summary => (true, applySummarySuccess conv_data summary identity now)
    | none => (false, conv_data)

lemma findSome?_none_of_all_none {α β : Type} (f : α → Option β) :
    ∀ l : List α, (∀ x ∈ l, f x = none) → l.findSome? f = none := by
  intro l
  induction l with
  | nil => intro _; rfl
  | cons a t ih =>
    intro h
    rw [List.findSome?_cons]
    rw [h a (List.mem_cons_self a t)]
    exact ih (fun x hx => h x (List.mem_cons_of_mem a hx))

/-- Every call of triggerSummary either reports failure with the document
unchanged or reports success with the success mutation applied. -/
lemma triggerSummary_eq (mgr : DiaryManagerAttrs) (oracles : ℕ → SummarizerOracle)
    (numModels : ℕ) (msgs : List Message) (conv_data : DailyDocument)
    (identity : String) (now : ℚ) :
    triggerSummary mgr oracles numModels msgs conv_data identity now =
        (false, conv_data)
    ∨ ∃ summary,
        triggerSummary mgr oracles numModels msgs conv_data identity now =
          (true, applySummarySuccess conv_data summary identity now) := by
  unfold triggerSummary
  split
  · exact Or.inl rfl
  · split
    · exact Or.inl rfl
    · split
      · rename_i summary _
        exact Or.inr ⟨summary, rfl⟩
      · exact Or.inl rfl

/-- C2: when every configured model attempt fails, trigger_summary returns
false and leaves the document untouched; any false return leaves the
document untouched; the document either stays unchanged or records a
success with last_summary_time = now; hence last_summary_time, once set,
never decreases across a call made at a time not before it. -/
theorem triggerSummary_failure_and_monotonicity (mgr : DiaryManagerAttrs)
    (oracles : ℕ → SummarizerOracle) (numModels : ℕ) (msgs : List Message)
    (conv_data : DailyDocument) (identity : String) (now : ℚ) :
    ((∀ i, i < numModels → triggerAttempt mgr (oracles i) msgs now = none) →
      triggerSummary mgr oracles numModels msgs conv_data identity now =
        (false, conv_data))
    ∧ ((triggerSummary mgr oracles numModels msgs conv_data identity now).1 = false →
      (triggerSummary mgr oracles numModels msgs conv_data identity now).2 = conv_data)
    ∧ ((triggerSummary mgr oracles numModels msgs conv_data identity now).2 = conv_data
      ∨ ((triggerSummary mgr oracles numModels msgs conv_data identity now).1 = true
        ∧ (triggerSummary mgr oracles numModels msgs conv_data
            identity now).2.last_summary_time = some now))
    ∧ (∀ t0 t1 : ℚ, conv_data.last_summary_time = some t0 → t0 ≤ now →
      (triggerSummary mgr oracles numModels msgs conv_data
        identity now).2.last_summary_time = some t1 → t0 ≤ t1) := by
  refine ⟨?_, ?_, ?_, ?_⟩
  · intro h
    unfold triggerSummary
    split
    · rfl
    · split
      · rfl
      · rw [findSome?_none_of_all_none _ _
          (fun i hi => h i (List.mem_range.mp hi))]
  · intro h
    rcases triggerSummary_eq mgr oracles numModels msgs conv_data identity now with
      h1 | ⟨summary, h1⟩
    · rw [h1]
    · rw [h1] at h
      simp at h
  · rcases triggerSummary_eq mgr oracles numModels msgs conv_data identity now with
      h1 | ⟨summary, h1⟩
    · exact Or.inl (by rw [h1])
    · refine Or.inr ⟨by rw [h1], ?_⟩
      rw [h1]
      rfl
  · intro t0 t1 h0 hle h1
    rcases triggerSummary_eq mgr oracles numModels msgs conv_data identity now with
      h2 | ⟨summary, h2⟩
    · rw [h2] at h1
      rw [h0] at h1
      injection h1 with h1
      exact le_of_eq h1
    · rw [h2] at h1
      simp [applySummarySuccess] at h1
      exact hle.trans (le_of_eq h1)

/-- An oracle whose every backend fails (empty LLM text). -/
def failOracleC2 : SummarizerOracle :=
  { generate := fun _ => ("")
    merge := fun _ _ => ("") }

/-- A document whose last_summary_time is already set, for the witness. -/
def docC2 : DailyDocument :=
  { createNewDataStructure ("conv") ("2024-01-02") 0 with last_summary_time := some 5 }

/-- Witness for C2: two configured models, both failing, one pending
message; the call returns false, the document is unchanged and the
last_summary_time 5 did not decrease. -/
theorem triggerSummary_failure_and_monotonicity_witness :
    triggerSummary (diaryManagerInit 100) (fun _ => failOracleC2) 2
        [{ time := 1, sender := ("alice"), content := ("hi") }] docC2 ("persona") 7 =
      (false, docC2)
    ∧ (5 : ℚ) ≤ 5 := by
  have h := triggerSummary_failure_and_monotonicity (diaryManagerInit 100)
    (fun _ => failOracleC2) 2
    [{ time := 1, sender := ("alice"), content := ("hi") }] docC2 ("persona") 7
  have hres := h.1 (fun i _ => by decide)
  refine ⟨hres, h.2.2.2 5 5 rfl (by norm_num) ?_⟩
  rw [hres]
  rfl

lemma one_lt_calculateEvenSegments (L N T : ℕ) (hL : 0 < L) (hT : L < T) :
    1 < calculateEvenSegments L N T := by
  unfold calculateEvenSegments
  rw [if_neg (by omega)]
  have h2 : 2 ≤ (T + L - 1) / L := (Nat.le_div_iff_mul_le hL).mpr (by omega)
  omega

/-- C10: whenever the flattened batch's token estimate exceeds the model
context limit, the merge step needs self.today_max_words, which
DiaryManager.__init__ never defines; the resulting error is swallowed by
the per-model retry loop, so for every oracle behaviour and every number
of configured models the call returns false and persists nothing. -/
theorem triggerSummary_multisegment_always_fails
    (modelContextLimitK numModels : ℕ) (oracles : ℕ → SummarizerOracle)
    (msgs : List Message) (conv_data : DailyDocument) (identity : String) (now : ℚ)
    (hK : 0 < modelContextLimitK)
    (hT : (diaryManagerInit modelContextLimitK).model_context_limit <
      estimateTokens (flattenTranscript msgs).length) :
    triggerSummary (diaryManagerInit modelContextLimitK) oracles numModels msgs
      conv_data identity now = (false, conv_data) := by
  have hL : 0 < (diaryManagerInit modelContextLimitK).model_context_limit := by
    simp [diaryManagerInit]
    omega
  have hattempt : ∀ i, triggerAttempt (diaryManagerInit modelContextLimitK)
      (oracles i) msgs now = none := by
    intro i
    unfold triggerAttempt
    rw [if_pos (one_lt_calculateEvenSegments _ _ _ hL hT)]
    cases hm : (splitSegments msgs
        (calculateEvenSegments (diaryManagerInit modelContextLimitK).model_context_limit
          msgs.length (estimateTokens (flattenTranscript msgs).length))).mapM
        (fun seg => (generateSummary (oracles i) seg now).map
          (fun s => s.diary_content)) with
    | none => rfl
    | some segment_summaries => rfl
  unfold triggerSummary
  split
  · rfl
  · split
    · rfl
    · rw [findSome?_none_of_all_none _ _ (fun i _ => hattempt i)]

/-- An oracle that always succeeds, for the C10 witness: the failure is
forced by the missing attribute, not by the LLM. -/
def okOracleC10 : SummarizerOracle :=
  { generate := fun _ => ("ok")
    merge := fun _ _ => ("merged") }

/-- A single message long enough that its transcript exceeds the 1k-token
context limit of diaryManagerInit 1. -/
def msgC10 : Message :=
  { time := 1, sender := ("s"), content := String.mk (List.replicate 1600 ('a')) }

/-- An empty fresh document for the C10 witness. -/
def docC10 : DailyDocument := createNewDataStructure ("conv") ("2024-01-02") 0

set_option maxRecDepth 40000 in
/-- Witness for C10: context limit 1000 tokens, a 1603-character transcript
(estimate 1068 tokens), three models whose oracle always succeeds - the
call still returns false with the document unchanged. -/
theorem triggerSummary_multisegment_always_fails_witness :
    triggerSummary (diaryManagerInit 1) (fun _ => okOracleC10) 3 [msgC10] docC10
      ("persona") 7 = (false, docC10) :=
  triggerSummary_multisegment_always_fails 1 3 (fun _ => okOracleC10) [msgC10]
    docC10 ("persona") 7 (by decide) (by decide)

/-- The host's per-conversation message database, as the list of message
timestamps (the pending counts depend only on times). -/
abbrev MessageDB := List ℚ

/-- Modelled from the spec: get_raw_msg_before_timestamp_with_chat is a
host function outside this repository; per §6 it returns the messages
before `timestamp`, earliest first, capped at `limit`. -/
def getRawMsgBeforeTimestampWithChat (db : MessageDB) (timestamp : ℚ) (limit : ℕ) :
    List ℚ :=
  (db.filter (fun t => decide (t < timestamp))).take limit

/-- Modelled from the spec: get_raw_msg_by_timestamp_with_chat is a host
function outside this repository; per §4.3/§6 it returns the messages in
the half-open window [timestamp_start, timestamp_end). -/
def getRawMsgByTimestampWithChat (db : MessageDB) (timestampStart timestampEnd : ℚ) :
    List ℚ :=
  db.filter (fun t => decide (timestampStart ≤ t) && decide (t < timestampEnd))

/-- get_pending_count (diary_manager.py lines 529-559): load today's
document; with no last_summary_time count the messages before now with
limit 1000 (no lower bound); otherwise count the window from
last_summary_time to now. -/
def getPendingCount (db : MessageDB) (store : Store) (conversationId nowDate : String)
    (now : ℚ) : ℕ :=
  let conv_data := loadConversation store nowDate conversationId nowDate now
  match conv_data.last_summary_time with
  | none => (getRawMsgBeforeTimestampWithChat db now 1000).length
  | some last_time => (getRawMsgByTimestampWithChat db last_time now).length

/-- The pending count as the spec words it (§4.3): the number of messages
in [last_summary_time or start-of-day, now). -/
def pendingWindowSpec (db : MessageDB) (startOfDay now : ℚ)
    (lastSummaryTime : Option ℚ) : ℕ :=
  db.countP (fun t => decide (lastSummaryTime.getD startOfDay ≤ t) && decide (t < now))

/-- Counterexample to C6: a single message at time -5, before the
start-of-day 0, no last_summary_time; the code counts it (pending = 1)
while the claimed window [start-of-day, now) contains nothing. -/
theorem getPendingCount_counterexample :
    (loadConversation (fun _ => none) ("2024-01-02") ("conv") ("2024-01-02")
        10).last_summary_time = none
    ∧ getPendingCount [(-5 : ℚ)] (fun _ => none) ("conv") ("2024-01-02") 10 = 1
    ∧ pendingWindowSpec [(-5 : ℚ)] 0 10 none = 0
    ∧ ¬ (getPendingCount [(-5 : ℚ)] (fun _ => none) ("conv") ("2024-01-02") 10 =
        pendingWindowSpec [(-5 : ℚ)] 0 10 none) := by
  refine ⟨rfl, rfl, rfl, by decide⟩

/-- C6 amended: with last_summary_time set the pending count is exactly the
spec's window [last_summary_time, now) for every start-of-day; with
last_summary_time null it is the number of all messages before now, with
no lower bound, capped at 1000. -/
theorem getPendingCount_windows (db : MessageDB) (store : Store)
    (conversationId nowDate : String) (now startOfDay : ℚ) :
    getPendingCount db store conversationId nowDate now =
      match (loadConversation store nowDate conversationId nowDate
          now).last_summary_time with
      | some last_time => pendingWindowSpec db startOfDay now (some last_time)
      | none => min 1000 (db.countP (fun t => decide (t < now))) := by
  unfold getPendingCount
  cases h : (loadConversation store nowDate conversationId nowDate
      now).last_summary_time with
  | none =>
    simp only [h, getRawMsgBeforeTimestampWithChat]
    rw [List.length_take, List.countP_eq_length_filter]
  | some last_time =>
    simp only [h, pendingWindowSpec, getRawMsgByTimestampWithChat, Option.getD]
    rw [List.countP_eq_length_filter]

/-- A fresh document for the C7 round-trip statements (version 3.0,
updated_at 0). -/
def docC7 : DailyDocument := createNewDataStructure ("conv") ("2024-01-01") 0

/-- Counterexample to C7: saving a document and reloading it at a later
time is not the identity - metadata.updated_at is re-stamped by
_ensure_data_structure during the load. -/
theorem roundTrip_counterexample :
    ¬ (loadConversation (saveConversation (fun _ => none) ("2024-01-01") docC7)
        ("2024-01-01") ("conv") ("2024-01-01") 1 = docC7) := by
  decide

/-- C7 amended: save-then-load for the same (conversation, date) preserves
every field of a v3.0 document - tier contents, date, last_summary_time
and the rest of the metadata - except metadata.updated_at, which is
re-stamped to the load time. -/
theorem roundTrip_preserves_all_but_updatedAt (store : Store) (date : String)
    (doc : DailyDocument) (conversationId nowDate : String) (now : ℚ)
    (hv : doc.metadata.version = ("3.0")) :
    loadConversation (saveConversation store date doc) date conversationId nowDate
        now =
      { doc with metadata := { doc.metadata with updated_at := now } } := by
  unfold loadConversation saveConversation
  rw [if_pos rfl]
  show ensureDataStructure doc conversationId nowDate now = _
  unfold ensureDataStructure
  rw [if_neg (by simp [hv])]
  obtain ⟨cid, d, ds, yv, ov, lst, md⟩ := doc
  obtain ⟨ca, ua, ts, ver, idn, cons⟩ := md
  simp_all

/-- Witness for C7 amended at the fresh document, saved then loaded at
time 1: only updated_at changes, to 1. -/
theorem roundTrip_preserves_all_but_updatedAt_witness :
    loadConversation (saveConversation (fun _ => none) ("2024-01-01") docC7)
        ("2024-01-01") ("conv") ("2024-01-01") 1 =
      { docC7 with metadata := { docC7.metadata with updated_at := 1 } } :=
  roundTrip_preserves_all_but_updatedAt (fun _ => none) ("2024-01-01") docC7
    ("conv") ("2024-01-01") 1 rfl

/-- _sanitize_filename (lines 120-127): replace each illegal character
with an underscore, then truncate to 50 characters (Python slices by
character, as List.take on the character data does). -/
def sanitizeFilename (name : String) : String :=
  let illegal : List Char := [('<'), ('>'), (':'), ('\"'), ('/'), ('\\'), ('|'), ('?'), ('*')]
  let replaced := String.mk (name.data.map (fun c => if c ∈ illegal then ('_') else c))
  if replaced.length > 50 then String.mk (replaced.data.take 50) else replaced

/-- _get_conversation_info line 113 sanitizes the display name and
_get_conversation_folder (lines 129-135) joins {object_id}_{object_name}
under the chat-type directory and mkdirs it (exist_ok).  The type
directory is the list of its existing folder names; the call returns the
used folder and the resulting directory. -/
def getConversationFolder (typeDirFolders : List String) (objectId objectName : String) :
    String × List String :=
  let conversation_folder := objectId ++ ("_") ++ sanitizeFilename objectName
  (conversation_folder,
    if conversation_folder ∈ typeDirFolders then typeDirFolders
    else conversation_folder :: typeDirFolders)

/-- Counterexample to C9: with exactly one existing folder 123_old sharing
the stableId prefix and a changed display name, the resolver creates the
second folder 123_new and leaves 123_old in place - no rename happens. -/
theorem conversationFolder_no_rename_counterexample :
    (getConversationFolder [("123_old")] ("123") ("new")).1 = ("123_new")
    ∧ ("123_old") ∈ (getConversationFolder [("123_old")] ("123") ("new")).2
    ∧ ("123_new") ∈ (getConversationFolder [("123_old")] ("123") ("new")).2
    ∧ (getConversationFolder [("123_old")] ("123") ("new")).2.length = 2 := by
  refine ⟨by decide, by decide, by decide, by decide⟩

/-- C9 amended: the resolver never searches for or renames an existing
{stableId}_-prefixed folder; it always derives
{objectId}_{sanitized objectName}, creates it if absent, and leaves every
existing folder untouched, so a display-name change yields a second
folder. -/
theorem conversationFolder_amended (typeDirFolders : List String)
    (objectId objectName : String) :
    (getConversationFolder typeDirFolders objectId objectName).1 =
      objectId ++ ("_") ++ sanitizeFilename objectName
    ∧ (∀ f, f ∈ typeDirFolders →
        f ∈ (getConversationFolder typeDirFolders objectId objectName).2)
    ∧ (getConversationFolder typeDirFolders objectId objectName).1 ∈
        (getConversationFolder typeDirFolders objectId objectName).2 := by
  by_cases hmem :
      (objectId ++ ("_") ++ sanitizeFilename objectName) ∈ typeDirFolders <;>
    refine ⟨rfl, ?_, ?_⟩ <;>
      simp [getConversationFolder, hmem, List.mem_cons]
  intro f hf
  exact Or.inr hf

/-- Witness for C9 amended at one existing folder and a changed name. -/
theorem conversationFolder_amended_witness :
    ("123_old") ∈ (getConversationFolder [("123_old")] ("123") ("Name")).2
    ∧ (getConversationFolder [("123_old")] ("123") ("Name")).1 ∈
        (getConversationFolder [("123_old")] ("123") ("Name")).2 :=
  ⟨(conversationFolder_amended [("123_old")] ("123") ("Name")).2.1 ("123_old")
      (by decide),
    (conversationFolder_amended [("123_old")] ("123") ("Name")).2.2⟩

lemma loadConversation_version (store : Store) (date conversationId nowDate : String)
    (now : ℚ) :
    (loadConversation store date conversationId nowDate now).metadata.version =
      ("3.0") := by
  unfold loadConversation
  cases store date with
  | none => rfl
  | some d =>
    by_cases h : d.metadata.version = ("3.0") <;>
      simp [ensureDataStructure, createNewDataStructure, h]

lemma ensureDataStructure_fields (d : DailyDocument) (conversationId nowDate : String)
    (now : ℚ) (h : d.metadata.version = ("3.0")) :
    (ensureDataStructure d conversationId nowDate now).detailed_summaries =
        d.detailed_summaries
    ∧ (ensureDataStructure d conversationId nowDate now).yesterday_version =
        d.yesterday_version := by
  unfold ensureDataStructure
  rw [if_neg (by simp [h])]
  exact ⟨rfl, rfl⟩

lemma loadConversation_save_same (store : Store) (date conversationId nowDate : String)
    (doc : DailyDocument) (now : ℚ) :
    loadConversation (saveConversation store date doc) date conversationId nowDate
      now = ensureDataStructure doc conversationId nowDate now := by
  unfold loadConversation saveConversation
  simp

lemma loadConversation_save_other (store : Store)
    (date1 date2 conversationId nowDate : String) (doc : DailyDocument) (now : ℚ)
    (h : ¬ (date1 = date2)) :
    loadConversation (saveConversation store date2 doc) date1 conversationId nowDate
      now = loadConversation store date1 conversationId nowDate now := by
  unfold loadConversation saveConversation
  rw [if_neg h]

/-- The joined prior-day content of consolidate_yesterday lines 609-613:
the truthy diary_content fields, separated by the document separator. -/
def dailyContent (d : DailyDocument) : String :=
  String.intercalate ("\n\n---\n\n")
    ((d.detailed_summaries.map (fun s => s.diary_content)).filter
      (fun c => !(c = (""))))

/-- The mutation of the prior date's document on success (lines 633-635):
store the compressed text as yesterday_version and stamp consolidated_at. -/
def consolidatedYesterdayDoc (d : DailyDocument) (consolidatedContent : String)
    (now : ℚ) : DailyDocument :=
  { d with
    yesterday_version := some consolidatedContent
    metadata := { d.metadata with consolidated_at := some now } }

/-- consolidate_yesterday (diary_manager.py lines 573-656).  The oracle
parameter is modelled from the spec: the call site invokes
DiarySummarizer.consolidate_daily_summary(daily_content, date, identity,
conversation_type, max_words), a method that does not exist anywhere in
the source tree; per §6 the summarization oracle is an external fallible
black box returning the compressed prior-day text on success and
reporting plain failure otherwise (none here, landing in the function's
except-handler: false, no state change).  metaIdentity is the value of
metadata.get("metadata", {}).get("identity", "") read from the sidecar
metadata file.  The third component counts oracle invocations. -/
def consolidateYesterday (store : Store) (conversationId yesterdayDate nowDate : String)
    (metaIdentity chatType : String)
    (groupYesterdayMaxWords privateYesterdayMaxWords : ℕ)
    (oracle : String → String → ℕ → Option String) (now : ℚ) : Bool × Store × ℕ :=
  let yesterday_data := loadConversation store yesterdayDate conversationId nowDate now
  if yesterday_data.detailed_summaries.isEmpty then (false, store, 0)
  else if pyTruthy yesterday_data.yesterday_version then (false, store, 0)
  else if metaIdentity = ("") then (false, store, 0)
  else if dailyContent yesterday_data = ("") then (false, store, 0)
  else
    let max_words :=
      if chatType = ("group") then groupYesterdayMaxWords
      else privateYesterdayMaxWords
    match oracle (dailyContent yesterday_data) yesterdayDate max_words with
    | none => (false, store, 1)
    | some consolidated_content =>
      let yd1 := consolidatedYesterdayDoc yesterday_data consolidated_content now
      let store1 := saveConversation store yesterdayDate yd1
      let today_data := loadConversation store1 nowDate conversationId nowDate now
      let td1 : DailyDocument :=
        { today_data with yesterday_version := some consolidated_content }
      -- source line 643: the guard re-reads yesterday_version after the
      -- overwrite at line 634, so it sees the fresh consolidated content
      let td2 : DailyDocument :=
        if pyTruthy yd1.yesterday_version then
          { td1 with older_version := yd1.yesterday_version }
        else td1
      (true, saveConversation store1 nowDate td2, 1)

lemma consolidateYesterday_skip (store : Store)
    (conversationId yesterdayDate nowDate metaIdentity chatType : String)
    (groupYesterdayMaxWords privateYesterdayMaxWords : ℕ)
    (oracle : String → String → ℕ → Option String) (now : ℚ)
    (h : pyTruthy (loadConversation store yesterdayDate conversationId nowDate
          now).yesterday_version = true
      ∨ (loadConversation store yesterdayDate conversationId nowDate
          now).detailed_summaries = []) :
    consolidateYesterday store conversationId yesterdayDate nowDate metaIdentity
      chatType groupYesterdayMaxWords privateYesterdayMaxWords oracle now =
      (false, store, 0) := by
  rcases h with h | h
  · by_cases hs : (loadConversation store yesterdayDate conversationId nowDate
        now).detailed_summaries.isEmpty
    · simp [consolidateYesterday, hs]
    · simp [consolidateYesterday, hs, h]
  · simp [consolidateYesterday, h]

lemma consolidateYesterday_success_shape (store : Store)
    (conversationId yesterdayDate nowDate metaIdentity chatType : String)
    (groupYesterdayMaxWords privateYesterdayMaxWords : ℕ)
    (oracle : String → String → ℕ → Option String) (now : ℚ)
    (hsucc : (consolidateYesterday store conversationId yesterdayDate nowDate
      metaIdentity chatType groupYesterdayMaxWords privateYesterdayMaxWords oracle
      now).1 = true) :
    ∃ t td,
      td.yesterday_version = some t
      ∧ td.metadata.version = ("3.0")
      ∧ oracle (dailyContent (loadConversation store yesterdayDate conversationId
          nowDate now)) yesterdayDate
          (if chatType = ("group") then groupYesterdayMaxWords
            else privateYesterdayMaxWords) = some t
      ∧ consolidateYesterday store conversationId yesterdayDate nowDate metaIdentity
          chatType groupYesterdayMaxWords privateYesterdayMaxWords oracle now =
        (true,
          saveConversation
            (saveConversation store yesterdayDate
              (consolidatedYesterdayDoc
                (loadConversation store yesterdayDate conversationId nowDate now)
                t now))
            nowDate td, 1) := by
  by_cases h1 : (loadConversation store yesterdayDate conversationId nowDate
      now).detailed_summaries.isEmpty
  · simp [consolidateYesterday, h1] at hsucc
  · by_cases h2 : pyTruthy (loadConversation store yesterdayDate conversationId
        nowDate now).yesterday_version
    · simp [consolidateYesterday, h1, h2] at hsucc
    · by_cases h3 : metaIdentity = ("")
      · simp [consolidateYesterday, h1, h2, h3] at hsucc
      · by_cases h4 : dailyContent (loadConversation store yesterdayDate
            conversationId nowDate now) = ("")
        · simp [consolidateYesterday, h1, h2, h3, h4] at hsucc
        · cases ho : oracle (dailyContent (loadConversation store yesterdayDate
              conversationId nowDate now)) yesterdayDate
              (if chatType = ("group") then groupYesterdayMaxWords
                else privateYesterdayMaxWords) with
          | none => simp [consolidateYesterday, h1, h2, h3, h4, ho] at hsucc
          | some t =>
            by_cases htr : pyTruthy (some t) = true
            · refine ⟨t,
                { loadConversation
                    (saveConversation store yesterdayDate
                      (consolidatedYesterdayDoc
                        (loadConversation store yesterdayDate conversationId
                          nowDate now) t now))
                    nowDate conversationId nowDate now with
                  yesterday_version := some t
                  older_version := some t }, ?_, ?_, ?_, ?_⟩
              · rfl
              · exact loadConversation_version
                  (saveConversation store yesterdayDate
                    (consolidatedYesterdayDoc
                      (loadConversation store yesterdayDate conversationId nowDate
                        now) t now))
                  nowDate conversationId nowDate now
              · rfl
              · simp [consolidateYesterday, h1, h2, h3, h4, ho, htr,
                  consolidatedYesterdayDoc]
            · refine ⟨t,
                { loadConversation
                    (saveConversation store yesterdayDate
                      (consolidatedYesterdayDoc
                        (loadConversation store yesterdayDate conversationId
                          nowDate now) t now))
                    nowDate conversationId nowDate now with
                  yesterday_version := some t }, ?_, ?_, ?_, ?_⟩
              · rfl
              · exact loadConversation_version
                  (saveConversation store yesterdayDate
                    (consolidatedYesterdayDoc
                      (loadConversation store yesterdayDate conversationId nowDate
                        now) t now))
                  nowDate conversationId nowDate now
              · rfl
              · simp [consolidateYesterday, h1, h2, h3, h4, ho, htr,
                  consolidatedYesterdayDoc]

/-- C4: consolidate_yesterday skips - returning false, without invoking the
oracle and without writing any document - whenever the prior date's
document already has a truthy yesterday_version or has no detailed
summaries; and after a successful run (with an oracle whose successes are
non-empty, as §6 requires) an immediate second run is such a no-op. -/
theorem consolidateYesterday_skip_and_idempotent (store : Store)
    (conversationId yesterdayDate nowDate metaIdentity chatType : String)
    (groupYesterdayMaxWords privateYesterdayMaxWords : ℕ)
    (oracle : String → String → ℕ → Option String) (now : ℚ) :
    ((pyTruthy (loadConversation store yesterdayDate conversationId nowDate
          now).yesterday_version = true
      ∨ (loadConversation store yesterdayDate conversationId nowDate
          now).detailed_summaries = []) →
      consolidateYesterday store conversationId yesterdayDate nowDate metaIdentity
        chatType groupYesterdayMaxWords privateYesterdayMaxWords oracle now =
        (false, store, 0))
    ∧ (∀ (oracle2 : String → String → ℕ → Option String) (now2 : ℚ),
      (∀ c d w t, oracle c d w = some t → ¬ (t = (""))) →
      (consolidateYesterday store conversationId yesterdayDate nowDate metaIdentity
        chatType groupYesterdayMaxWords privateYesterdayMaxWords oracle now).1 =
        true →
      consolidateYesterday
        (consolidateYesterday store conversationId yesterdayDate nowDate metaIdentity
          chatType groupYesterdayMaxWords privateYesterdayMaxWords oracle now).2.1
        conversationId yesterdayDate nowDate metaIdentity chatType
        groupYesterdayMaxWords privateYesterdayMaxWords oracle2 now2 =
        (false,
          (consolidateYesterday store conversationId yesterdayDate nowDate
            metaIdentity chatType groupYesterdayMaxWords privateYesterdayMaxWords
            oracle now).2.1, 0)) := by
  constructor
  · exact consolidateYesterday_skip store conversationId yesterdayDate nowDate
      metaIdentity chatType groupYesterdayMaxWords privateYesterdayMaxWords oracle
      now
  · intro oracle2 now2 honest hsucc
    obtain ⟨t, td, hty, htv, ho, hres⟩ :=
      consolidateYesterday_success_shape store conversationId yesterdayDate nowDate
        metaIdentity chatType groupYesterdayMaxWords privateYesterdayMaxWords
        oracle now hsucc
    have ht : ¬ (t = ("")) := honest _ _ _ _ ho
    rw [hres]
    apply consolidateYesterday_skip
    left
    by_cases hdd : yesterdayDate = nowDate
    · subst hdd
      rw [loadConversation_save_same]
      rw [(ensureDataStructure_fields td conversationId yesterdayDate now2 htv).2,
        hty]
      simp [pyTruthy, ht]
    · rw [loadConversation_save_other _ _ _ _ _ _ _ hdd]
      rw [loadConversation_save_same]
      have hv1 : (consolidatedYesterdayDoc
          (loadConversation store yesterdayDate conversationId nowDate now) t
          now).metadata.version = ("3.0") :=
        loadConversation_version store yesterdayDate conversationId nowDate now
      rw [(ensureDataStructure_fields _ conversationId nowDate now2 hv1).2]
      simp [consolidatedYesterdayDoc, pyTruthy, ht]

/-- One prior-day incremental summary for the consolidation witnesses. -/
def sumC4 : Summary :=
  { id := ("s1"), start_time := 0, end_time := 0, message_count := 2,
    diary_content := ("raw-notes"), created_at := 0 }

/-- A prior-day document with one summary and no yesterday_version yet. -/
def ydocC4 : DailyDocument :=
  { createNewDataStructure ("conv") ("2024-01-01") 0 with
    detailed_summaries := [sumC4] }

/-- Store whose prior-day document is already consolidated. -/
def storeC4skip : Store := fun d =>
  if d = ("2024-01-01") then some { ydocC4 with yesterday_version := some ("done") }
  else none

/-- Store with an unconsolidated prior-day document. -/
def storeC4 : Store := fun d =>
  if d = ("2024-01-01") then some ydocC4 else none

/-- A consolidation oracle that always succeeds with non-empty text. -/
def oracleC4 : String → String → ℕ → Option String :=
  fun _ _ _ => some ("COMPRESSED")

/-- Witness for C4: the already-consolidated store is skipped with zero
oracle calls; on the unconsolidated store the first run succeeds and the
immediate second run is a no-op returning false with zero oracle calls. -/
theorem consolidateYesterday_skip_and_idempotent_witness :
    consolidateYesterday storeC4skip ("conv") ("2024-01-01") ("2024-01-02")
      ("persona") ("group") 1000 800 oracleC4 5 = (false, storeC4skip, 0)
    ∧ (consolidateYesterday storeC4 ("conv") ("2024-01-01") ("2024-01-02")
        ("persona") ("group") 1000 800 oracleC4 5).1 = true
    ∧ consolidateYesterday
        (consolidateYesterday storeC4 ("conv") ("2024-01-01") ("2024-01-02")
          ("persona") ("group") 1000 800 oracleC4 5).2.1
        ("conv") ("2024-01-01") ("2024-01-02") ("persona") ("group") 1000 800
        oracleC4 6 =
      (false,
        (consolidateYesterday storeC4 ("conv") ("2024-01-01") ("2024-01-02")
          ("persona") ("group") 1000 800 oracleC4 5).2.1, 0) := by
  refine ⟨?_, by decide, ?_⟩
  · exact (consolidateYesterday_skip_and_idempotent storeC4skip ("conv")
      ("2024-01-01") ("2024-01-02") ("persona") ("group") 1000 800 oracleC4 5).1
      (Or.inl (by decide))
  · exact (consolidateYesterday_skip_and_idempotent storeC4 ("conv")
      ("2024-01-01") ("2024-01-02") ("persona") ("group") 1000 800 oracleC4 5).2
      oracleC4 6
      (by
        intro c d w t h
        simp only [oracleC4, Option.some.injEq] at h
        subst h
        decide)
      (by decide)

/-- A fresh current-day document for the C5 evaluation. -/
def tdocC5 : DailyDocument := createNewDataStructure ("conv") ("2024-01-02") 0

/-- Store with an unconsolidated prior-day document and an empty current-day
document. -/
def storeC5 : Store := fun d =>
  if d = ("2024-01-01") then some ydocC4
  else if d = ("2024-01-02") then some tdocC5 else none

/-- C5 evaluated at its failing input: the prior date 2024-01-01 holds one
summary and no archived yesterday tier (yesterday_version none), the
current date's older_version is none, and the oracle compresses to
"COMPRESSED".  After the successful run the current date's document holds
the freshly compressed content in BOTH yesterday_version and
older_version: line 643 re-reads the field overwritten at line 634, so the
prior yesterday tier (empty here) is not what reaches older_version. -/
theorem consolidateYesterday_older_version_bug :
    (consolidateYesterday storeC5 ("conv") ("2024-01-01") ("2024-01-02")
      ("persona") ("group") 1000 800 oracleC4 5).1 = true
    ∧ ydocC4.yesterday_version = none
    ∧ tdocC5.older_version = none
    ∧ ((consolidateYesterday storeC5 ("conv") ("2024-01-01") ("2024-01-02")
        ("persona") ("group") 1000 800 oracleC4 5).2.1 ("2024-01-02")).map
          DailyDocument.yesterday_version = some (some ("COMPRESSED"))
    ∧ ((consolidateYesterday storeC5 ("conv") ("2024-01-01") ("2024-01-02")
        ("persona") ("group") 1000 800 oracleC4 5).2.1 ("2024-01-02")).map
          DailyDocument.older_version = some (some ("COMPRESSED")) := by
  refine ⟨by decide, rfl, rfl, by decide, by decide⟩
